import Mathlib

/-!
Shallow embedding of the Boost Ball Arena backend (`backend/server.py`).

The service is a FastAPI app over a MongoDB document store.  The embedding
models the three collections (`players`, `customizations`, `matches`) as Lean
lists of documents and each HTTP handler as a pure function from a database
state (plus the request payload and the values that Python draws from its
environment: fresh UUIDs and the current time) to a new database state and a
response.  Python's unbounded `int` is `Int`; timestamps are modelled as `Int`
(the `isoformat`/`fromisoformat` string round-trip performed by the handlers is
the identity on the stored instant, so serialization is elided).  A raised
`HTTPException` or uncaught Python exception (`KeyError`, `TypeError`) is an
`Except.error`; since the Mongo writes that already happened before the raise
are kept, the handlers that can fail return the (possibly updated) state
together with the `Except` result.  Mongo update documents (`{"$set": {...}}`
built from Python dicts) are association lists `List (String × Value)`; a
Python dict indexing failure is a `KeyError`.
-/

/-- A value stored in a Mongo update document: the handlers only ever put
Python ints and strings there. -/
inductive Value where
  | i (n : Int)
  | s (str : String)
deriving DecidableEq

/-- Stored player document (`Player` pydantic model, `players` collection). -/
structure Player where
  id : String
  username : String
  email : String
  avatar : String
  level : Int
  xp : Int
  coins : Int
  diamonds : Int
  rank : String
  wins : Int
  losses : Int
  goals : Int
  created_at : Int
deriving DecidableEq

/-- `PlayerUpdate` pydantic model: every field optional, `None` meaning
"not supplied". -/
structure PlayerUpdate where
  avatar : Option String
  level : Option Int
  xp : Option Int
  coins : Option Int
  diamonds : Option Int
  rank : Option String
  wins : Option Int
  losses : Option Int
  goals : Option Int
deriving DecidableEq

/-- Stored customization document (`CarCustomization` pydantic model,
`customizations` collection). -/
structure CarCustomization where
  id : String
  player_id : String
  car_model : String
  body_color : String
  decal : String
  wheels : String
  boost_effect : String
  goal_explosion : String
  updated_at : Int
deriving DecidableEq

/-- Stored match document (`MatchResult` pydantic model, `matches`
collection). -/
structure MatchResult where
  id : String
  player_id : String
  match_type : String
  result : String
  player_goals : Int
  opponent_goals : Int
  duration : Int
  xp_earned : Int
  coins_earned : Int
  timestamp : Int
deriving DecidableEq

/-- `MatchResultCreate` request model. -/
structure MatchResultCreate where
  player_id : String
  match_type : String
  result : String
  player_goals : Int
  opponent_goals : Int
  duration : Int
  xp_earned : Int
  coins_earned : Int
deriving DecidableEq

/-- `Leaderboard` response model. -/
structure Leaderboard where
  username : String
  wins : Int
  goals : Int
  rank : String
  level : Int
deriving DecidableEq

/-- The three Mongo collections used by the service. -/
structure DBState where
  players : List Player
  customizations : List CarCustomization
  matchesColl : List MatchResult
deriving DecidableEq

/-- Failure modes surfaced by the handlers: the three `HTTPException`s plus
the uncaught Python exceptions a dict/int misuse can raise. -/
inductive ApiError where
  | conflict
  | notFound
  | invalidInput
  | keyError (key : String)
  | typeError
deriving DecidableEq

/-- `db.collection.update_one(filter, {"$set": fields})` touches only the
first matching document. -/
def updateFirst (pred : α → Bool) (f : α → α) : List α → List α
  | [] => []
  | x :: xs => if pred x then f x :: xs else x :: updateFirst pred f xs

/-- `$set` of a single `field: value` pair on a player document
(unknown field names or mismatched value shapes never arise in the code;
they would leave the modelled document unchanged). -/
def Player.setField (p : Player) (kv : String × Value) : Player :=
  match kv with
  | (k, Value.i v) =>
    if k = "level" then { p with level := v }
    else if k = "xp" then { p with xp := v }
    else if k = "coins" then { p with coins := v }
    else if k = "diamonds" then { p with diamonds := v }
    else if k = "wins" then { p with wins := v }
    else if k = "losses" then { p with losses := v }
    else if k = "goals" then { p with goals := v }
    else p
  | (k, Value.s v) =>
    if k = "avatar" then { p with avatar := v }
    else if k = "rank" then { p with rank := v }
    else p

/-- `$set` of a whole update document on a player document. -/
def Player.applySet (p : Player) (fields : List (String × Value)) : Player :=
  fields.foldl Player.setField p

/-- `updates.model_dump().items()` for a `PlayerUpdate`: all nine optional
fields, in declaration order. -/
def PlayerUpdate.model_dump (u : PlayerUpdate) : List (String × Option Value) :=
  [("avatar", u.avatar.map Value.s), ("level", u.level.map Value.i),
   ("xp", u.xp.map Value.i), ("coins", u.coins.map Value.i),
   ("diamonds", u.diamonds.map Value.i), ("rank", u.rank.map Value.s),
   ("wins", u.wins.map Value.i), ("losses", u.losses.map Value.i),
   ("goals", u.goals.map Value.i)]

/-- `{k: v for k, v in updates.model_dump().items() if v is not None}`
(`update_player`, line 164). -/
def PlayerUpdate.update_data (u : PlayerUpdate) : List (String × Value) :=
  u.model_dump.filterMap (fun kv => kv.2.map (fun v => (kv.1, v)))

/-- `POST /players` (`create_player`, lines 127-138): refuse a duplicate
email, otherwise persist a `Player` built from the request plus the model's
default field values. -/
def create_player (st : DBState) (username email newId : String) (ts : Int) :
    DBState × Except ApiError Player :=
  match st.players.find? (fun p => p.email == email) with
  | some _ => (st, Except.error ApiError.conflict)
  | none =>
    let player : Player :=
      { id := newId, username := username, email := email, avatar := "default",
        level := 1, xp := 0, coins := 1000, diamonds := 50, rank := "Bronze",
        wins := 0, losses := 0, goals := 0, created_at := ts }
    ({ st with players := st.players ++ [player] }, Except.ok player)

/-- `PATCH /players/{player_id}` (`update_player`, lines 162-180): build the
non-null update document, 400 if it is empty, `$set` it on the first matching
player, 404 if nothing matched, then read the document back. -/
def update_player (st : DBState) (player_id : String) (u : PlayerUpdate) :
    DBState × Except ApiError Player :=
  let ud := u.update_data
  if ud.isEmpty then (st, Except.error ApiError.invalidInput)
  else
    let matched := st.players.find? (fun p => p.id == player_id)
    let players2 := updateFirst (fun p => p.id == player_id)
      (fun p => p.applySet ud) st.players
    let st2 : DBState := { st with players := players2 }
    if matched.isNone then (st2, Except.error ApiError.notFound)
    else
      match players2.find? (fun p => p.id == player_id) with
      | some updated => (st2, Except.ok updated)
      | none => (st2, Except.error ApiError.notFound)

/-- The customization document `CarCustomization(player_id=player_id)`
synthesizes: all cosmetic fields at their model defaults. -/
def defaultCustomization (pid newId : String) (ts : Int) : CarCustomization :=
  { id := newId, player_id := pid, car_model := "default",
    body_color := "#3B82F6", decal := "none", wheels := "default",
    boost_effect := "blue", goal_explosion := "default", updated_at := ts }

/-- `GET /customization/{player_id}` (`get_customization`, lines 196-210):
return the stored customization, or lazily create and persist a default one. -/
def get_customization (st : DBState) (player_id newId : String) (ts : Int) :
    DBState × CarCustomization :=
  match st.customizations.find? (fun c => c.player_id == player_id) with
  | some c => (st, c)
  | none =>
    let d := defaultCustomization player_id newId ts
    ({ st with customizations := st.customizations ++ [d] }, d)

/-- `MatchResult(**match_data.model_dump())`: the stored match document is
the request payload plus a fresh id and the current time. -/
def MatchResultCreate.toMatch (md : MatchResultCreate) (newId : String)
    (ts : Int) : MatchResult :=
  { id := newId, player_id := md.player_id, match_type := md.match_type,
    result := md.result, player_goals := md.player_goals,
    opponent_goals := md.opponent_goals, duration := md.duration,
    xp_earned := md.xp_earned, coins_earned := md.coins_earned,
    timestamp := ts }

/-- The level-up loop of `create_match_result` (lines 260-262):
`while new_xp >= new_level * 100: new_xp -= new_level * 100; new_level += 1`,
returning the final `(new_level, new_xp)`.  Python ints are unbounded and,
via `PATCH /players`, stored levels and xp can be arbitrary integers, so the
loop is embedded over `Int`; it terminates because the level strictly
increases until it is positive, after which the xp strictly decreases. -/
def levelLoop (level xp : Int) : Int × Int :=
  if xp ≥ level * 100 then levelLoop (level + 1) (xp - level * 100)
  else (level, xp)
termination_by ((1 - level).toNat, xp.toNat)
decreasing_by
  rcases le_or_lt level 0 with h1 | h1
  · exact Prod.Lex.left _ _ (by omega)
  · have e1 : (1 - (level + 1)).toNat = 0 := by omega
    have e2 : (1 - level).toNat = 0 := by omega
    rw [e1, e2]
    exact Prod.Lex.right _ (by omega)

/-- The stat-update block of `create_match_result` (lines 246-273): build the
`updates` dict for an existing player.  The dict always gets `xp`, `coins`,
`goals`, then `wins` on a "win" and `losses` otherwise, then `level` from the
level-up loop (the loop's remaining xp is *not* written back), and finally
`rank` when the threshold chain fires — read from `updates['wins']`, a lookup
that raises `KeyError` whenever the result was not "win". -/
def statUpdates (player : Player) (md : MatchResultCreate) :
    Except ApiError (List (String × Value)) :=
  let updates0 : List (String × Value) :=
    [("xp", Value.i (player.xp + md.xp_earned)),
     ("coins", Value.i (player.coins + md.coins_earned)),
     ("goals", Value.i (player.goals + md.player_goals))]
  let updates1 :=
    if md.result == "win" then updates0 ++ [("wins", Value.i (player.wins + 1))]
    else updates0 ++ [("losses", Value.i (player.losses + 1))]
  match updates1.lookup "xp" with
  | none => Except.error (ApiError.keyError "xp")
  | some (Value.s _) => Except.error ApiError.typeError
  | some (Value.i rawXp) =>
    let lv := levelLoop player.level rawXp
    let updates2 := updates1 ++ [("level", Value.i lv.1)]
    match updates2.lookup "wins" with
    | none => Except.error (ApiError.keyError "wins")
    | some (Value.s _) => Except.error ApiError.typeError
    | some (Value.i w) =>
      Except.ok
        (if w ≥ 50 then updates2 ++ [("rank", Value.s "Diamond")]
         else if w ≥ 30 then updates2 ++ [("rank", Value.s "Platinum")]
         else if w ≥ 15 then updates2 ++ [("rank", Value.s "Gold")]
         else if w ≥ 5 then updates2 ++ [("rank", Value.s "Silver")]
         else updates2)

/-- `POST /matches` (`create_match_result`, lines 235-277): persist the match
record first, then best-effort-update the owning player's stats.  A missing
player is skipped silently; an exception inside the stat block aborts the
player update (the match stays persisted) and surfaces as an error. -/
def create_match_result (st : DBState) (md : MatchResultCreate)
    (newId : String) (ts : Int) : DBState × Except ApiError MatchResult :=
  let m := md.toMatch newId ts
  let st1 : DBState := { st with matchesColl := st.matchesColl ++ [m] }
  match st1.players.find? (fun p => p.id == md.player_id) with
  | none => (st1, Except.ok m)
  | some player =>
    match statUpdates player md with
    | Except.error e => (st1, Except.error e)
    | Except.ok updates3 =>
      let players2 := updateFirst (fun p => p.id == md.player_id)
        (fun p => p.applySet updates3) st1.players
      ({ st1 with players := players2 }, Except.ok m)

/-- `GET /matches/player/{player_id}` (`get_player_matches`, lines 279-290):
the player's matches, most recent first, truncated to `limit` entries.  The
Mongo `sort("timestamp", -1)` is modelled as a stable sort by descending
timestamp. -/
def get_player_matches (st : DBState) (player_id : String) (limit : Nat) :
    List MatchResult :=
  ((st.matchesColl.filter (fun m => m.player_id == player_id)).insertionSort
    (fun a b => b.timestamp ≤ a.timestamp)).take limit

/-- `get_player_matches` with the handler's default `limit: int = 10`. -/
def get_player_matches_default (st : DBState) (player_id : String) :
    List MatchResult :=
  get_player_matches st player_id 10

/-- Projection of a player document to a `Leaderboard` row (the Mongo
projection of `get_leaderboard`). -/
def Player.toLeaderboard (p : Player) : Leaderboard :=
  { username := p.username, wins := p.wins, goals := p.goals, rank := p.rank,
    level := p.level }

/-- `GET /leaderboard` (`get_leaderboard`, lines 293-300): all players sorted
by descending wins, truncated to `limit`, projected to leaderboard rows. -/
def get_leaderboard (st : DBState) (limit : Nat) : List Leaderboard :=
  ((st.players.insertionSort (fun a b => b.wins ≤ a.wins)).take limit).map
    Player.toLeaderboard

/-- `get_leaderboard` with the handler's default `limit: int = 10`. -/
def get_leaderboard_default (st : DBState) : List Leaderboard :=
  get_leaderboard st 10

instance : DecidableRel (fun a b : Player => b.wins ≤ a.wins) :=
  fun _ _ => Int.decLe _ _

instance : IsTotal Player (fun a b => b.wins ≤ a.wins) :=
  ⟨fun a b => le_total b.wins a.wins⟩

instance : IsTrans Player (fun a b => b.wins ≤ a.wins) :=
  ⟨fun _ _ _ h1 h2 => le_trans h2 h1⟩

instance : DecidableRel (fun a b : MatchResult => b.timestamp ≤ a.timestamp) :=
  fun _ _ => Int.decLe _ _

instance : IsTotal MatchResult (fun a b => b.timestamp ≤ a.timestamp) :=
  ⟨fun a b => le_total b.timestamp a.timestamp⟩

instance : IsTrans MatchResult (fun a b => b.timestamp ≤ a.timestamp) :=
  ⟨fun _ _ _ h1 h2 => le_trans h2 h1⟩

/-! ### Shared lemmas about the embedding -/

/-- `$set` never touches the `id` field (no handler ever puts `"id"` in an
update document, and `setField` has no `id` case). -/
theorem setField_id (p : Player) (kv : String × Value) :
    (p.setField kv).id = p.id := by
  rcases kv with ⟨k, v | v⟩ <;> simp only [Player.setField] <;>
    split_ifs <;> rfl

/-- `$set` of a whole update document never touches the `id` field. -/
theorem applySet_id (p : Player) (l : List (String × Value)) :
    (p.applySet l).id = p.id := by
  induction l generalizing p with
  | nil => rfl
  | cons kv rest ih =>
    show ((p.setField kv).applySet rest).id = p.id
    rw [ih, setField_id]

/-- `find?` after `update_one`: when the update preserves the filter, the
read-back finds exactly the updated first match. -/
theorem find?_updateFirst (pred : α → Bool) (f : α → α) (l : List α)
    (hf : ∀ a, pred (f a) = pred a) :
    (updateFirst pred f l).find? pred = (l.find? pred).map f := by
  induction l with
  | nil => rfl
  | cons x xs ih =>
    by_cases hx : pred x
    · have hfx : pred (f x) = true := by rw [hf]; exact hx
      rw [updateFirst, if_pos hx, List.find?_cons_of_pos _ hfx,
        List.find?_cons_of_pos _ hx]
      rfl
    · have hfx : ¬pred x = true := hx
      rw [updateFirst, if_neg hx, List.find?_cons_of_neg _ hfx,
        List.find?_cons_of_neg _ hfx, ih]

/-- `updateFirst` leaves the list unchanged when nothing matches. -/
theorem updateFirst_of_find?_eq_none (pred : α → Bool) (f : α → α)
    (l : List α) (h : l.find? pred = none) : updateFirst pred f l = l := by
  induction l with
  | nil => rfl
  | cons x xs ih =>
    by_cases hx : pred x
    · rw [List.find?_cons_of_pos _ hx] at h
      exact absurd h (by simp)
    · rw [List.find?_cons_of_neg _ hx] at h
      rw [updateFirst, if_neg hx, ih h]

/-- `find?` over an append whose left part has no match. -/
theorem find?_append_none {p : α → Bool} {l1 l2 : List α}
    (h : l1.find? p = none) : (l1 ++ l2).find? p = l2.find? p := by
  induction l1 with
  | nil => rfl
  | cons x xs ih =>
    by_cases hx : p x
    · rw [List.find?_cons_of_pos _ hx] at h
      exact absurd h (by simp)
    · rw [List.find?_cons_of_neg _ hx] at h
      rw [List.cons_append, List.find?_cons_of_neg _ hx, ih h]

/-- Invariant of the level-up loop: started at a level ≥ 1 with xp ≥ 0, it
lands on a level ≥ 1 and an xp remainder in `[0, level * 100)`. -/
theorem levelLoop_spec : ∀ (level xp : Int), 1 ≤ level → 0 ≤ xp →
    1 ≤ (levelLoop level xp).1 ∧ 0 ≤ (levelLoop level xp).2 ∧
      (levelLoop level xp).2 < (levelLoop level xp).1 * 100 := by
  intro level xp
  induction level, xp using levelLoop.induct with
  | case1 level xp hguard ih =>
    intro hl _
    rw [levelLoop, if_pos hguard]
    exact ih (by omega) (by omega)
  | case2 level xp hguard =>
    intro hl hx
    rw [levelLoop, if_neg hguard]
    exact ⟨hl, hx, by omega⟩

/-- C2: For every starting level ≥ 1, starting xp ≥ 0, and non-negative xp
gain, the leveling loop of `create_match_result` terminates (it is a total
function of the embedding) and its result satisfies
`0 ≤ newXp < newLevel * 100`; moreover level 1, xp 80, gain 50 yields level 2
with 30 xp, and level 1, xp 0, gain 350 yields level 3 with 50 xp. -/
theorem leveling_terminates_and_normalizes (level xp gain : Int)
    (hl : 1 ≤ level) (hx : 0 ≤ xp) (hg : 0 ≤ gain) :
    (0 ≤ (levelLoop level (xp + gain)).2 ∧
      (levelLoop level (xp + gain)).2 < (levelLoop level (xp + gain)).1 * 100) ∧
    levelLoop 1 (80 + 50) = (2, 30) ∧ levelLoop 1 (0 + 350) = (3, 50) := by
  refine ⟨?_, ?_, ?_⟩
  · have h := levelLoop_spec level (xp + gain) hl (by omega)
    exact ⟨h.2.1, h.2.2⟩
  · rw [show (80 + 50 : Int) = 130 from rfl]
    rw [levelLoop]; norm_num
    rw [levelLoop]; norm_num
  · rw [show (0 + 350 : Int) = 350 from rfl]
    rw [levelLoop]; norm_num
    rw [levelLoop]; norm_num
    rw [levelLoop]; norm_num

/-- C2 witness: the leveling theorem instantiated at level 1, xp 80,
gain 50. -/
theorem leveling_terminates_and_normalizes_witness :
    (0 ≤ (levelLoop 1 (80 + 50)).2 ∧
      (levelLoop 1 (80 + 50)).2 < (levelLoop 1 (80 + 50)).1 * 100) ∧
    levelLoop 1 (80 + 50) = (2, 30) ∧ levelLoop 1 (0 + 350) = (3, 50) :=
  leveling_terminates_and_normalizes 1 80 50 (by norm_num) (by norm_num)
    (by norm_num)

/-- The partial-update contract as the spec words it: each supplied (non-null)
field overwrites the stored one, every other field is untouched.  This is the
refinement target that the dict-filtering `$set` pipeline of `update_player`
is compared against. -/
def applyUpdateSpec (p : Player) (u : PlayerUpdate) : Player :=
  { p with
    avatar := u.avatar.getD p.avatar, level := u.level.getD p.level,
    xp := u.xp.getD p.xp, coins := u.coins.getD p.coins,
    diamonds := u.diamonds.getD p.diamonds, rank := u.rank.getD p.rank,
    wins := u.wins.getD p.wins, losses := u.losses.getD p.losses,
    goals := u.goals.getD p.goals }

set_option maxHeartbeats 3200000 in
/-- The source's update pipeline (dump, drop nulls, `$set` field by field)
applies exactly the non-null fields. -/
theorem applySet_update_data (p : Player) (u : PlayerUpdate) :
    p.applySet u.update_data = applyUpdateSpec p u := by
  rcases u with ⟨a, l, x, c, d, r, w, lo, g⟩
  rcases a <;> rcases l <;> rcases x <;> rcases c <;> rcases d <;>
    rcases r <;> rcases w <;> rcases lo <;> rcases g <;> rfl

/-- The filtered update document is empty exactly when no field was
supplied. -/
theorem update_data_eq_nil_iff (u : PlayerUpdate) :
    u.update_data = [] ↔
      (u.avatar = none ∧ u.level = none ∧ u.xp = none ∧ u.coins = none ∧
       u.diamonds = none ∧ u.rank = none ∧ u.wins = none ∧ u.losses = none ∧
       u.goals = none) := by
  simp [PlayerUpdate.update_data, PlayerUpdate.model_dump,
    List.filterMap_eq_nil_iff, Option.map_eq_none']

/-- Shared: `update_player` on an existing player with a nonempty update
document rewrites the first matching document by the spec-style partial
update and returns the rewritten document. -/
theorem update_player_found (st : DBState) (pid : String) (u : PlayerUpdate)
    (p : Player) (hne : u.update_data ≠ [])
    (hp : st.players.find? (fun q => q.id == pid) = some p) :
    update_player st pid u =
      ({ st with players := updateFirst (fun q => q.id == pid) (fun q => applyUpdateSpec q u) st.players },
       Except.ok (applyUpdateSpec p u)) := by
  have hud : u.update_data.isEmpty = false := by
    cases h : u.update_data with
    | nil => exact absurd h hne
    | cons a as => rfl
  have hpres : ∀ q : Player,
      ((q.applySet u.update_data).id == pid) = (q.id == pid) := by
    intro q; rw [applySet_id]
  have hfun : (fun q : Player => q.applySet u.update_data) =
      (fun q => applyUpdateSpec q u) :=
    funext fun q => applySet_update_data q u
  have hf2 := find?_updateFirst (fun q => q.id == pid)
    (fun q => q.applySet u.update_data) st.players hpres
  rw [hfun] at hf2
  simp only [update_player, hud, Bool.false_eq_true, if_false, hp,
    Option.isNone_some, hfun, hf2, Option.map_some']

/-- C5: `UpdatePlayer` applies exactly the non-null fields supplied and
returns the post-update record; with zero non-null fields it fails with
`InvalidInput` performing no write; with an id matching no player it fails
with `NotFound`. -/
theorem update_player_contract (st : DBState) (pid : String)
    (u : PlayerUpdate) :
    ((u.avatar = none ∧ u.level = none ∧ u.xp = none ∧ u.coins = none ∧
      u.diamonds = none ∧ u.rank = none ∧ u.wins = none ∧ u.losses = none ∧
      u.goals = none) →
      update_player st pid u = (st, Except.error ApiError.invalidInput)) ∧
    (u.update_data ≠ [] → st.players.find? (fun q => q.id == pid) = none →
      update_player st pid u = (st, Except.error ApiError.notFound)) ∧
    (∀ p, u.update_data ≠ [] →
      st.players.find? (fun q => q.id == pid) = some p →
      update_player st pid u =
        ({ st with players := updateFirst (fun q => q.id == pid) (fun q => applyUpdateSpec q u) st.players },
         Except.ok (applyUpdateSpec p u))) := by
  refine ⟨?_, ?_, ?_⟩
  · intro hall
    have hud : u.update_data = [] := (update_data_eq_nil_iff u).mpr hall
    simp only [update_player, hud, List.isEmpty_nil, if_true]
  · intro hne hfind
    have hud : u.update_data.isEmpty = false := by
      cases h : u.update_data with
      | nil => exact absurd h hne
      | cons a as => rfl
    have hid := updateFirst_of_find?_eq_none (fun q => q.id == pid)
      (fun q => q.applySet u.update_data) st.players hfind
    simp only [update_player, hud, Bool.false_eq_true, if_false, hfind,
      Option.isNone_none, if_true, hid]
  · intro p hne hp
    exact update_player_found st pid u p hne hp

/-- Player fixture used by the concrete witnesses. -/
def wPlayer : Player :=
  { id := "p1", username := "alice", email := "alice@example.com",
    avatar := "default", level := 1, xp := 0, coins := 1000, diamonds := 50,
    rank := "Bronze", wins := 0, losses := 0, goals := 0, created_at := 0 }

/-- One-player database fixture used by the concrete witnesses. -/
def wState : DBState :=
  { players := [wPlayer], customizations := [], matchesColl := [] }

/-- C5 witness: the contract applied to a one-player database and an update
supplying only `avatar`. -/
theorem update_player_contract_witness :
    update_player wState "p1"
        ⟨some "red", none, none, none, none, none, none, none, none⟩ =
      ({ wState with players := updateFirst (fun q => q.id == "p1") (fun q => applyUpdateSpec q ⟨some "red", none, none, none, none, none, none, none, none⟩) wState.players },
       Except.ok (applyUpdateSpec wPlayer
        ⟨some "red", none, none, none, none, none, none, none, none⟩)) :=
  (update_player_contract wState "p1"
      ⟨some "red", none, none, none, none, none, none, none, none⟩).2.2
    wPlayer
    (by simp [PlayerUpdate.update_data, PlayerUpdate.model_dump])
    (by decide)

/-- C9: `update_player` validates nothing — for an existing player, whatever
integers are supplied for level, xp, coins, diamonds, wins, losses and goals
are written back verbatim (negative values and `xp ≥ level * 100`
included). -/
theorem update_player_no_validation (st : DBState) (pid : String) (p : Player)
    (hp : st.players.find? (fun q => q.id == pid) = some p)
    (lv xv cv dv wv lsv gv : Int) :
    (update_player st pid
        ⟨none, some lv, some xv, some cv, some dv, none, some wv, some lsv,
          some gv⟩).2 =
      Except.ok { p with level := lv, xp := xv, coins := cv, diamonds := dv,
                         wins := wv, losses := lsv, goals := gv } := by
  have h := update_player_found st pid
    ⟨none, some lv, some xv, some cv, some dv, none, some wv, some lsv,
      some gv⟩ p
    (by simp [PlayerUpdate.update_data, PlayerUpdate.model_dump]) hp
  rw [h]
  rfl

/-- C9 witness: level 1 with xp 500 (and assorted negative counters) is
stored verbatim, so the at-rest invariant `xp < level * 100` fails after the
update. -/
theorem update_player_no_validation_witness :
    ((update_player wState "p1"
        ⟨none, some 1, some 500, some (-5), some (-1), none, some (-2),
          some (-3), some (-4)⟩).2 =
      Except.ok { wPlayer with level := 1, xp := 500, coins := -5,
                               diamonds := -1, wins := -2, losses := -3,
                               goals := -4 }) ∧
    ¬((500 : Int) < 1 * 100) :=
  ⟨update_player_no_validation wState "p1" wPlayer (by decide)
    1 500 (-5) (-1) (-2) (-3) (-4), by norm_num⟩

/-- C6: `CreatePlayer` fails with `Conflict` if and only if a player with the
given email already exists; otherwise it persists a new player whose defaults
are level 1, xp 0, coins 1000, diamonds 50, rank "Bronze" and wins, losses,
goals all 0. -/
theorem create_player_contract (st : DBState) (username email newId : String)
    (ts : Int) :
    ((create_player st username email newId ts).2 =
        Except.error ApiError.conflict ↔ ∃ p ∈ st.players, p.email = email) ∧
    ((∀ p ∈ st.players, p.email ≠ email) →
      create_player st username email newId ts =
        ({ st with players := st.players ++ [{ id := newId, username := username, email := email, avatar := "default", level := 1, xp := 0, coins := 1000, diamonds := 50, rank := "Bronze", wins := 0, losses := 0, goals := 0, created_at := ts }] },
         Except.ok { id := newId, username := username, email := email, avatar := "default", level := 1, xp := 0, coins := 1000, diamonds := 50, rank := "Bronze", wins := 0, losses := 0, goals := 0, created_at := ts })) := by
  constructor
  · constructor
    · intro hres
      cases hfind : st.players.find? (fun p => p.email == email) with
      | none => rw [create_player, hfind] at hres; exact absurd hres (by simp)
      | some q =>
        have hq := List.find?_some hfind
        have hmem := List.mem_of_find?_eq_some hfind
        exact ⟨q, hmem, by simpa using hq⟩
    · rintro ⟨p, hmem, hemail⟩
      have : st.players.find? (fun q => q.email == email) ≠ none := by
        intro hnone
        rw [List.find?_eq_none] at hnone
        exact hnone p hmem (by simpa using hemail)
      cases hfind : st.players.find? (fun q => q.email == email) with
      | none => exact absurd hfind this
      | some q => rw [create_player, hfind]
  · intro hnone
    have hfind : st.players.find? (fun q => q.email == email) = none := by
      rw [List.find?_eq_none]
      intro q hq
      simpa using hnone q hq
    rw [create_player, hfind]

/-- C6 witness: creating a player in an empty database succeeds with the
documented defaults. -/
theorem create_player_contract_witness :
    create_player { players := [], customizations := [], matchesColl := [] }
        "alice" "alice@example.com" "p1" 0 =
      ({ players := [{ id := "p1", username := "alice", email := "alice@example.com", avatar := "default", level := 1, xp := 0, coins := 1000, diamonds := 50, rank := "Bronze", wins := 0, losses := 0, goals := 0, created_at := 0 }], customizations := [], matchesColl := [] },
       Except.ok { id := "p1", username := "alice", email := "alice@example.com", avatar := "default", level := 1, xp := 0, coins := 1000, diamonds := 50, rank := "Bronze", wins := 0, losses := 0, goals := 0, created_at := 0 }) :=
  (create_player_contract
      { players := [], customizations := [], matchesColl := [] }
      "alice" "alice@example.com" "p1" 0).2 (by simp)

/-- Shared: the lazy-default branch of `get_customization` persists the
default record and hands it back. -/
theorem get_customization_creates (st : DBState) (pid newId : String)
    (ts : Int)
    (h : st.customizations.find? (fun c => c.player_id == pid) = none) :
    get_customization st pid newId ts =
      ({ st with customizations := st.customizations ++ [defaultCustomization pid newId ts] },
       defaultCustomization pid newId ts) := by
  rw [get_customization, h]

/-- Shared: `find?` locates the freshly inserted default customization. -/
theorem find?_after_default_insert (st : DBState) (pid newId : String)
    (ts : Int)
    (h : st.customizations.find? (fun c => c.player_id == pid) = none) :
    (st.customizations ++ [defaultCustomization pid newId ts]).find?
        (fun c => c.player_id == pid) =
      some (defaultCustomization pid newId ts) := by
  rw [find?_append_none h]
  simp [defaultCustomization]

/-- C7: for a player with no customization `get_customization` synthesizes
and persists one with the documented default field values; a second request
returns that same record with no further insertion; for a player that
already has one it returns the stored record unchanged. -/
theorem get_customization_idempotent (st : DBState) (pid newId : String)
    (ts : Int) (newId2 : String) (ts2 : Int) :
    (∀ c, st.customizations.find? (fun c2 => c2.player_id == pid) = some c →
      get_customization st pid newId ts = (st, c)) ∧
    (st.customizations.find? (fun c2 => c2.player_id == pid) = none →
      get_customization st pid newId ts =
        ({ st with customizations := st.customizations ++ [defaultCustomization pid newId ts] },
         defaultCustomization pid newId ts) ∧
      (defaultCustomization pid newId ts).car_model = "default" ∧
      (defaultCustomization pid newId ts).body_color = "#3B82F6" ∧
      (defaultCustomization pid newId ts).decal = "none" ∧
      (defaultCustomization pid newId ts).wheels = "default" ∧
      (defaultCustomization pid newId ts).boost_effect = "blue" ∧
      (defaultCustomization pid newId ts).goal_explosion = "default" ∧
      get_customization
          { st with customizations := st.customizations ++ [defaultCustomization pid newId ts] }
          pid newId2 ts2 =
        ({ st with customizations := st.customizations ++ [defaultCustomization pid newId ts] },
         defaultCustomization pid newId ts)) := by
  constructor
  · intro c hc
    rw [get_customization, hc]
  · intro h
    refine ⟨get_customization_creates st pid newId ts h, rfl, rfl, rfl, rfl,
      rfl, rfl, ?_⟩
    rw [get_customization]
    rw [show ({ st with customizations := st.customizations ++ [defaultCustomization pid newId ts] } : DBState).customizations = st.customizations ++ [defaultCustomization pid newId ts] from rfl]
    rw [find?_after_default_insert st pid newId ts h]

/-- C7 witness: the lazy-default branch on a database with no
customizations. -/
theorem get_customization_idempotent_witness :
    get_customization wState "p1" "c1" 7 =
      ({ wState with customizations := [defaultCustomization "p1" "c1" 7] },
       defaultCustomization "p1" "c1" 7) ∧
    get_customization
        { wState with customizations := [defaultCustomization "p1" "c1" 7] }
        "p1" "c9" 8 =
      ({ wState with customizations := [defaultCustomization "p1" "c1" 7] },
       defaultCustomization "p1" "c1" 7) := by
  have h := ((get_customization_idempotent wState "p1" "c1" 7 "c9" 8).2
    (by decide))
  exact ⟨h.1, h.2.2.2.2.2.2.2⟩

/-- C10: `get_customization` never checks that the player exists — with no
player and no customization for `pid` it still succeeds, persists the
default record, and leaves a customization on file for a player id that has
no player document. -/
theorem get_customization_dangling (st : DBState) (pid newId : String)
    (ts : Int)
    (hnp : st.players.find? (fun p => p.id == pid) = none)
    (hnc : st.customizations.find? (fun c => c.player_id == pid) = none) :
    get_customization st pid newId ts =
      ({ st with customizations := st.customizations ++ [defaultCustomization pid newId ts] },
       defaultCustomization pid newId ts) ∧
    ((st.customizations ++ [defaultCustomization pid newId ts]).find?
        (fun c => c.player_id == pid) =
      some (defaultCustomization pid newId ts)) ∧
    ({ st with customizations := st.customizations ++ [defaultCustomization pid newId ts] } : DBState).players.find?
        (fun p => p.id == pid) = none := by
  exact ⟨get_customization_creates st pid newId ts hnc,
    find?_after_default_insert st pid newId ts hnc, hnp⟩

/-- C10 witness: an empty database — no player "ghost" exists, yet the
customization request succeeds and persists a record for it. -/
theorem get_customization_dangling_witness :
    get_customization { players := [], customizations := [], matchesColl := [] }
        "ghost" "c1" 3 =
      ({ players := [], customizations := [defaultCustomization "ghost" "c1" 3], matchesColl := [] },
       defaultCustomization "ghost" "c1" 3) ∧
    ([defaultCustomization "ghost" "c1" 3].find?
        (fun c => c.player_id == "ghost") =
      some (defaultCustomization "ghost" "c1" 3)) ∧
    (([] : List Player).find? (fun p => p.id == "ghost") = none) := by
  have h := get_customization_dangling
    { players := [], customizations := [], matchesColl := [] }
    "ghost" "c1" 3 (by decide) (by decide)
  exact ⟨h.1, h.2.1, h.2.2⟩

/-- Three-player fixture for the leaderboard example: wins 10, 50, 5 in
storage order. -/
def lbState : DBState :=
  { players :=
      [{ id := "pa", username := "a", email := "a@x", avatar := "default",
         level := 1, xp := 0, coins := 1000, diamonds := 50, rank := "Bronze",
         wins := 10, losses := 0, goals := 0, created_at := 0 },
       { id := "pb", username := "b", email := "b@x", avatar := "default",
         level := 1, xp := 0, coins := 1000, diamonds := 50, rank := "Bronze",
         wins := 50, losses := 0, goals := 0, created_at := 0 },
       { id := "pc", username := "c", email := "c@x", avatar := "default",
         level := 1, xp := 0, coins := 1000, diamonds := 50, rank := "Bronze",
         wins := 5, losses := 0, goals := 0, created_at := 0 }],
    customizations := [], matchesColl := [] }

/-- C8: the leaderboard returns at most `limit` rows, sorted by wins
descending, with the handler's default limit being 10; on players with wins
[10, 50, 5] and limit 3 it returns them ordered [50, 10, 5]. -/
theorem get_leaderboard_contract (st : DBState) (limit : Nat) :
    (get_leaderboard st limit).length ≤ limit ∧
    List.Sorted (fun a b : Leaderboard => b.wins ≤ a.wins)
      (get_leaderboard st limit) ∧
    get_leaderboard_default st = get_leaderboard st 10 ∧
    get_leaderboard lbState 3 =
      [{ username := "b", wins := 50, goals := 0, rank := "Bronze", level := 1 },
       { username := "a", wins := 10, goals := 0, rank := "Bronze", level := 1 },
       { username := "c", wins := 5, goals := 0, rank := "Bronze", level := 1 }] := by
  refine ⟨?_, ?_, rfl, by decide⟩
  · calc (get_leaderboard st limit).length
        = ((st.players.insertionSort (fun a b => b.wins ≤ a.wins)).take
            limit).length := by rw [get_leaderboard, List.length_map]
      _ ≤ limit := by
          rw [List.length_take]
          exact min_le_left _ _
  · rw [get_leaderboard]
    have hs : List.Sorted (fun a b : Player => b.wins ≤ a.wins)
        (st.players.insertionSort (fun a b => b.wins ≤ a.wins)) :=
      List.sorted_insertionSort _ st.players
    have ht : List.Sorted (fun a b : Player => b.wins ≤ a.wins)
        ((st.players.insertionSort (fun a b => b.wins ≤ a.wins)).take limit) :=
      List.Pairwise.sublist (List.take_sublist _ _) hs
    exact (List.pairwise_map).mpr ht

/-- C4: recording a match for a player id that matches no player succeeds
without error — the match document is persisted exactly as submitted, no
player document is touched, and the match is retrievable through the match
history query (stated for any `limit` large enough to hold this player's
matches). -/
theorem create_match_best_effort (st : DBState) (md : MatchResultCreate)
    (newId : String) (ts : Int) (limit : Nat)
    (hp : st.players.find? (fun q => q.id == md.player_id) = none)
    (hlim : (st.matchesColl.filter
        (fun m => m.player_id == md.player_id)).length + 1 ≤ limit) :
    create_match_result st md newId ts =
      ({ st with matchesColl := st.matchesColl ++ [md.toMatch newId ts] },
       Except.ok (md.toMatch newId ts)) ∧
    md.toMatch newId ts ∈ get_player_matches
      { st with matchesColl := st.matchesColl ++ [md.toMatch newId ts] }
      md.player_id limit := by
  constructor
  · simp only [create_match_result, hp]
  · rw [get_player_matches]
    have hfil : ({ st with matchesColl := st.matchesColl ++ [md.toMatch newId ts] } : DBState).matchesColl.filter (fun m => m.player_id == md.player_id) = st.matchesColl.filter (fun m => m.player_id == md.player_id) ++ [md.toMatch newId ts] := by
      show (st.matchesColl ++ [md.toMatch newId ts]).filter _ = _
      rw [List.filter_append]
      simp [MatchResultCreate.toMatch]
    rw [hfil]
    have hperm := List.perm_insertionSort
      (fun a b : MatchResult => b.timestamp ≤ a.timestamp)
      (st.matchesColl.filter (fun m => m.player_id == md.player_id) ++
        [md.toMatch newId ts])
    have hlen : (List.insertionSort
        (fun a b : MatchResult => b.timestamp ≤ a.timestamp)
        (st.matchesColl.filter (fun m => m.player_id == md.player_id) ++
          [md.toMatch newId ts])).length ≤ limit := by
      rw [hperm.length_eq, List.length_append]
      simpa using hlim
    rw [List.take_of_length_le hlen]
    exact hperm.mem_iff.mpr (by simp)

/-- C4 witness: a match for the unknown player id "ghost" on the one-player
database. -/
theorem create_match_best_effort_witness :
    create_match_result wState
        { player_id := "ghost", match_type := "1v1", result := "loss",
          player_goals := 2, opponent_goals := 3, duration := 300,
          xp_earned := 50, coins_earned := 25 } "m1" 9 =
      ({ wState with matchesColl := [MatchResultCreate.toMatch { player_id := "ghost", match_type := "1v1", result := "loss", player_goals := 2, opponent_goals := 3, duration := 300, xp_earned := 50, coins_earned := 25 } "m1" 9] },
       Except.ok (MatchResultCreate.toMatch { player_id := "ghost", match_type := "1v1", result := "loss", player_goals := 2, opponent_goals := 3, duration := 300, xp_earned := 50, coins_earned := 25 } "m1" 9)) ∧
    MatchResultCreate.toMatch { player_id := "ghost", match_type := "1v1", result := "loss", player_goals := 2, opponent_goals := 3, duration := 300, xp_earned := 50, coins_earned := 25 } "m1" 9 ∈
      get_player_matches { wState with matchesColl := [MatchResultCreate.toMatch { player_id := "ghost", match_type := "1v1", result := "loss", player_goals := 2, opponent_goals := 3, duration := 300, xp_earned := 50, coins_earned := 25 } "m1" 9] } "ghost" 10 :=
  create_match_best_effort wState
    { player_id := "ghost", match_type := "1v1", result := "loss",
      player_goals := 2, opponent_goals := 3, duration := 300,
      xp_earned := 50, coins_earned := 25 } "m1" 9 10
    (by decide) (by decide)

/-- Shared: on any non-"win" result the updates dict gets a `losses` entry
and never a `wins` entry, so the rank step's `updates['wins']` read raises
`KeyError('wins')`. -/
theorem statUpdates_loss (player : Player) (md : MatchResultCreate)
    (h : md.result ≠ "win") :
    statUpdates player md = Except.error (ApiError.keyError "wins") := by
  have hb : (md.result == "win") = false := beq_eq_false_iff_ne.mpr h
  simp only [statUpdates, hb, Bool.false_eq_true, if_false]
  rfl

/-- The update document a "win" always carries before the rank step: raw
accumulated xp (the loop's remainder is not written back), coins, goals, the
bumped wins counter and the new level. -/
def winBase (p : Player) (md : MatchResultCreate) : List (String × Value) :=
  [("xp", Value.i (p.xp + md.xp_earned)),
   ("coins", Value.i (p.coins + md.coins_earned)),
   ("goals", Value.i (p.goals + md.player_goals)),
   ("wins", Value.i (p.wins + 1)),
   ("level", Value.i (levelLoop p.level (p.xp + md.xp_earned)).1)]

/-- Shared: on a "win" the updates dict is built completely; the rank entry
is appended exactly when the new wins total reaches a threshold. -/
theorem statUpdates_win (p : Player) (md : MatchResultCreate)
    (h : md.result = "win") :
    statUpdates p md = Except.ok
      (if p.wins + 1 ≥ 50 then winBase p md ++ [("rank", Value.s "Diamond")]
       else if p.wins + 1 ≥ 30 then winBase p md ++ [("rank", Value.s "Platinum")]
       else if p.wins + 1 ≥ 15 then winBase p md ++ [("rank", Value.s "Gold")]
       else if p.wins + 1 ≥ 5 then winBase p md ++ [("rank", Value.s "Silver")]
       else winBase p md) := by
  have hb : (md.result == "win") = true := by simp [h]
  simp only [statUpdates, hb, if_true]
  rfl

/-- Shared: for an existing player, when the stat block completes with
update document `U`, `create_match_result` persists the match and `$set`s
`U` on the first matching player document. -/
theorem create_match_ok (st : DBState) (md : MatchResultCreate)
    (newId : String) (ts : Int) (p : Player) (U : List (String × Value))
    (hp : st.players.find? (fun q => q.id == md.player_id) = some p)
    (hupd : statUpdates p md = Except.ok U) :
    create_match_result st md newId ts =
      ({ players := updateFirst (fun q => q.id == md.player_id) (fun q => q.applySet U) st.players, customizations := st.customizations, matchesColl := st.matchesColl ++ [md.toMatch newId ts] },
       Except.ok (md.toMatch newId ts)) ∧
    (create_match_result st md newId ts).1.players.find?
        (fun q => q.id == md.player_id) = some (p.applySet U) := by
  have hpres : ∀ q : Player,
      ((q.applySet U).id == md.player_id) = (q.id == md.player_id) := by
    intro q; rw [applySet_id]
  have hf2 := find?_updateFirst (fun q => q.id == md.player_id)
    (fun q => q.applySet U) st.players hpres
  have h1 : create_match_result st md newId ts =
      ({ players := updateFirst (fun q => q.id == md.player_id) (fun q => q.applySet U) st.players, customizations := st.customizations, matchesColl := st.matchesColl ++ [md.toMatch newId ts] },
       Except.ok (md.toMatch newId ts)) := by
    simp only [create_match_result, hp, hupd]
  refine ⟨h1, ?_⟩
  rw [h1]
  simp only [hf2, hp, Option.map_some']

/-- Shared: on any non-"win" result for an existing player the stat update
aborts on `KeyError('wins')`: the match is persisted but no player document
is written. -/
theorem create_match_loss_aborts (st : DBState) (md : MatchResultCreate)
    (newId : String) (ts : Int) (p : Player)
    (hp : st.players.find? (fun q => q.id == md.player_id) = some p)
    (h : md.result ≠ "win") :
    create_match_result st md newId ts =
      ({ st with matchesColl := st.matchesColl ++ [md.toMatch newId ts] },
       Except.error (ApiError.keyError "wins")) := by
  simp only [create_match_result, hp, statUpdates_loss p md h]

/-- C1 (code bug): for an existing player a "win" result completes the stat
update — wins goes up by one and losses is untouched — but any other result
reaches the rank step's `updates['wins']` read with no `wins` key, raising
`KeyError('wins')`: the losses increment is never written, no player document
changes, and the request fails (the match record alone is persisted). -/
theorem create_match_win_loss_behavior (st : DBState) (md : MatchResultCreate)
    (newId : String) (ts : Int) (p : Player)
    (hp : st.players.find? (fun q => q.id == md.player_id) = some p) :
    (md.result = "win" →
      ((create_match_result st md newId ts).1.players.find?
          (fun q => q.id == md.player_id)).map Player.wins =
        some (p.wins + 1) ∧
      ((create_match_result st md newId ts).1.players.find?
          (fun q => q.id == md.player_id)).map Player.losses =
        some p.losses ∧
      (create_match_result st md newId ts).2 =
        Except.ok (md.toMatch newId ts)) ∧
    (md.result ≠ "win" →
      create_match_result st md newId ts =
        ({ st with matchesColl := st.matchesColl ++ [md.toMatch newId ts] },
         Except.error (ApiError.keyError "wins"))) := by
  constructor
  · intro hres
    obtain ⟨h1, h2⟩ := create_match_ok st md newId ts p _ hp
      (statUpdates_win p md hres)
    rw [h2]
    refine ⟨?_, ?_, by rw [h1]⟩
    · rw [Option.map_some']
      split_ifs <;> rfl
    · rw [Option.map_some']
      split_ifs <;> rfl
  · intro hres
    exact create_match_loss_aborts st md newId ts p hp hres

/-- C1 witness: a "loss" for the stored player "p1" raises
`KeyError('wins')`; only the match record is persisted. -/
theorem create_match_win_loss_behavior_witness :
    create_match_result wState
        { player_id := "p1", match_type := "1v1", result := "loss",
          player_goals := 1, opponent_goals := 2, duration := 60,
          xp_earned := 10, coins_earned := 5 } "m1" 4 =
      ({ wState with matchesColl := [MatchResultCreate.toMatch { player_id := "p1", match_type := "1v1", result := "loss", player_goals := 1, opponent_goals := 2, duration := 60, xp_earned := 10, coins_earned := 5 } "m1" 4] },
       Except.error (ApiError.keyError "wins")) :=
  (create_match_win_loss_behavior wState
      { player_id := "p1", match_type := "1v1", result := "loss",
        player_goals := 1, opponent_goals := 2, duration := 60,
        xp_earned := 10, coins_earned := 5 } "m1" 4 wPlayer (by decide)).2
    (by decide)

/-- A stored player whose rank field is inconsistent with its wins total:
3 wins but rank "Diamond" (reachable through `PATCH /players`). -/
def c3Player : Player :=
  { id := "p1", username := "dia", email := "dia@example.com",
    avatar := "default", level := 1, xp := 0, coins := 0, diamonds := 0,
    rank := "Diamond", wins := 3, losses := 0, goals := 0, created_at := 0 }

/-- Database fixture holding only `c3Player`. -/
def c3State : DBState :=
  { players := [c3Player], customizations := [], matchesColl := [] }

/-- A "win" match submission for `c3Player`. -/
def c3Match : MatchResultCreate :=
  { player_id := "p1", match_type := "1v1", result := "win",
    player_goals := 0, opponent_goals := 0, duration := 0, xp_earned := 0,
    coins_earned := 0 }

/-- C3 counterexample: after a win that brings the player to 4 wins, the
stored rank remains "Diamond" — not the "Bronze" the claimed
independent-of-prior-rank recomputation demands for wins = 4. -/
theorem create_match_rank_counterexample :
    (create_match_result c3State c3Match "m1" 1).1.players.map Player.rank =
      ["Diamond"] ∧
    (create_match_result c3State c3Match "m1" 1).1.players.map Player.wins =
      [4] ∧
    ("Diamond" : String) ≠ "Bronze" := by
  refine ⟨?_, ?_, by decide⟩ <;> rfl

/-- C3 (amended): after a match with result "win" for an existing player the
new rank is a function of the new wins total alone whenever that total
reaches 5 (≥ 50 Diamond, ≥ 30 Platinum, ≥ 15 Gold, ≥ 5 Silver); when the
new wins total is below 5 no rank is written, so the previously stored rank
persists even if inconsistent with the wins total.  (For non-"win" results
the stat update aborts before the rank step — see C1.) -/
theorem create_match_rank_amended (st : DBState) (md : MatchResultCreate)
    (newId : String) (ts : Int) (p : Player)
    (hp : st.players.find? (fun q => q.id == md.player_id) = some p)
    (hres : md.result = "win") :
    ((create_match_result st md newId ts).1.players.find?
        (fun q => q.id == md.player_id)).map Player.rank =
      some (if p.wins + 1 ≥ 50 then "Diamond"
        else if p.wins + 1 ≥ 30 then "Platinum"
        else if p.wins + 1 ≥ 15 then "Gold"
        else if p.wins + 1 ≥ 5 then "Silver"
        else p.rank) ∧
    ((create_match_result st md newId ts).1.players.find?
        (fun q => q.id == md.player_id)).map Player.wins =
      some (p.wins + 1) := by
  obtain ⟨h1, h2⟩ := create_match_ok st md newId ts p _ hp
    (statUpdates_win p md hres)
  rw [h2]
  constructor
  · rw [Option.map_some']
    split_ifs <;> rfl
  · rw [Option.map_some']
    split_ifs <;> rfl

/-- C3 witness: the amended rank rule at a player with 4 wins winning its
fifth match — the recomputed rank is "Silver". -/
theorem create_match_rank_amended_witness :
    ((create_match_result { players := [{ id := "p2", username := "s", email := "s@example.com", avatar := "default", level := 1, xp := 0, coins := 0, diamonds := 0, rank := "Bronze", wins := 4, losses := 0, goals := 0, created_at := 0 }], customizations := [], matchesColl := [] } { player_id := "p2", match_type := "1v1", result := "win", player_goals := 0, opponent_goals := 0, duration := 0, xp_earned := 0, coins_earned := 0 } "m1" 1).1.players.find? (fun q => q.id == "p2")).map Player.rank =
      some (if (4 : Int) + 1 ≥ 50 then "Diamond"
        else if (4 : Int) + 1 ≥ 30 then "Platinum"
        else if (4 : Int) + 1 ≥ 15 then "Gold"
        else if (4 : Int) + 1 ≥ 5 then "Silver"
        else "Bronze") ∧
    ((create_match_result { players := [{ id := "p2", username := "s", email := "s@example.com", avatar := "default", level := 1, xp := 0, coins := 0, diamonds := 0, rank := "Bronze", wins := 4, losses := 0, goals := 0, created_at := 0 }], customizations := [], matchesColl := [] } { player_id := "p2", match_type := "1v1", result := "win", player_goals := 0, opponent_goals := 0, duration := 0, xp_earned := 0, coins_earned := 0 } "m1" 1).1.players.find? (fun q => q.id == "p2")).map Player.wins =
      some ((4 : Int) + 1) :=
  create_match_rank_amended
    { players := [{ id := "p2", username := "s", email := "s@example.com", avatar := "default", level := 1, xp := 0, coins := 0, diamonds := 0, rank := "Bronze", wins := 4, losses := 0, goals := 0, created_at := 0 }], customizations := [], matchesColl := [] }
    { player_id := "p2", match_type := "1v1", result := "win",
      player_goals := 0, opponent_goals := 0, duration := 0, xp_earned := 0,
      coins_earned := 0 } "m1" 1
    { id := "p2", username := "s", email := "s@example.com",
      avatar := "default", level := 1, xp := 0, coins := 0, diamonds := 0,
      rank := "Bronze", wins := 4, losses := 0, goals := 0, created_at := 0 }
    (by decide) rfl
